import Mathlib

/-!
Shallow embedding of the smile-gesture input pipeline (src/face-detection.js,
src/unnamed/part_000) and of the game simulation (src/game.js,
src/unnamed/part_001) of the cheekmax demo repository.  Real-valued
quantities of the source are modelled by exact rationals.
-/

/-- State of the FaceDetector smile pipeline: the published smoothed score
(field smileScore), the hysteresis flag (field isSmiling) and the FIFO
smoothing buffer (field smileBuffer), as set up in the FaceDetector
constructor. -/
structure FDState where
  smileScore : ℚ
  isSmiling : Bool
  smileBuffer : List ℚ

/-- Buffer capacity of the smoothing FIFO (this.bufferSize = 5). -/
def bufferSize : ℕ := 5

/-- Hysteresis trigger threshold (this.triggerThreshold = 0.6). -/
def triggerThreshold : ℚ := 6/10

/-- Hysteresis reset threshold (this.resetThreshold = 0.4). -/
def resetThreshold : ℚ := 4/10

/-- FaceDetector state right after construction: score 0, not smiling,
empty buffer. -/
def initFD : FDState := ⟨0, false, []⟩

/-- One invocation of FaceDetector.detectSmile on a composite score: push
the score into the FIFO buffer, evict the oldest entry when the buffer is
over capacity, recompute the smoothed mean over the buffer, run the
hysteresis on the smoothed value, and report the onSmileChange callback
invocation: none when the flag did not change, some of the new flag when it
did (the source fires the callback exactly on a flag change, passing the
new flag). -/
def detectSmile (s : FDState) (score : ℚ) : FDState × Option Bool :=
  let buf0 := s.smileBuffer ++ [score]
  let buf := if bufferSize < buf0.length then buf0.tail else buf0
  let smoothed := buf.sum / (buf.length : ℚ)
  let smiling :=
    if !s.isSmiling then
      if triggerThreshold < smoothed then true else false
    else
      if smoothed < resetThreshold then false else true
  let event : Option Bool := if s.isSmiling != smiling then some smiling else none
  (⟨smoothed, smiling, buf⟩, event)

/-- One invocation of FaceDetector.processResults: the frame either carries
the two smile blendshape scores (left and right, already looked up with
default 0) or no face.  With no face the published smileScore is set to 0
and the method returns at once; otherwise the composite (left + right) / 2
is handed to detectSmile. -/
def processResults (s : FDState) (sample : Option (ℚ × ℚ)) : FDState × Option Bool :=
  match sample with
  | none => ({ s with smileScore := 0 }, none)
  | some (l, r) => detectSmile s ((l + r) / 2)

/-- Detector state reached after one detectSmile step, events discarded. -/
def stepFD (s : FDState) (x : ℚ) : FDState := (detectSmile s x).1

/-- Detector state reached from the fresh detector after ingesting a list
of composite scores through detectSmile. -/
def ingestList (l : List ℚ) : FDState := l.foldl stepFD initFD

/-- Trace of a run of detectSmile over a list of composite scores from a
given state: the list of (state after the step, callback invocation of the
step) pairs, in order. -/
def stepsFD : FDState → List ℚ → List (FDState × Option Bool)
  | _, [] => []
  | s, x :: xs => (detectSmile s x) :: stepsFD (detectSmile s x).1 xs

/-- Detector state after n consecutive no-face frames handed to
processResults. -/
def noFaceIter (s : FDState) : ℕ → FDState
  | 0 => s
  | n + 1 => (processResults (noFaceIter s n) none).1

/-- Game constant SCREEN_HEIGHT = 480. -/
def SCREEN_HEIGHT : ℚ := 480

/-- Game constant SCREEN_WIDTH = 640. -/
def SCREEN_WIDTH : ℚ := 640

/-- Game constant GRAVITY = 0.2. -/
def GRAVITY : ℚ := 2/10

/-- Game constant FLAP_STRENGTH = -7. -/
def FLAP_STRENGTH : ℚ := -7

/-- Game constant OBSTACLE_SPEED = 2.5. -/
def OBSTACLE_SPEED : ℚ := 25/10

/-- Game constant OBSTACLE_WIDTH = 80. -/
def OBSTACLE_WIDTH : ℚ := 80

/-- Game constant GAP_SIZE = 200. -/
def GAP_SIZE : ℚ := 200

/-- Game constant BIRD_SIZE = 60. -/
def BIRD_SIZE : ℚ := 60

/-- Game constant BIRD_X = 150. -/
def BIRD_X : ℚ := 150

/-- Game constant SPAWN_DISTANCE = 300. -/
def SPAWN_DISTANCE : ℚ := 300

/-- Game constant MIN_FLAP_INTERVAL = 500 milliseconds. -/
def MIN_FLAP_INTERVAL : ℤ := 500

/-- Game constant maxRounds = 3. -/
def maxRounds : ℕ := 3

/-- One scrolling obstacle: horizontal position, the vertical bounds of its
gap, and the scored-once flag.  The spawn identity field of the source is
presentation only and not modelled. -/
structure Obstacle where
  x : ℚ
  gapTop : ℚ
  gapBottom : ℚ
  passed : Bool

/-- Simulation state of FlappyGame: bird position and velocity, the
obstacle list, the per-round score, the started and terminal flags, the
timestamp of the last accepted flap, the current round and the session
best score. -/
structure GameState where
  birdY : ℚ
  birdVelocity : ℚ
  obstacles : List Obstacle
  score : ℕ
  gameStarted : Bool
  gameOver : Bool
  lastFlapTime : ℤ
  currentRound : ℕ
  bestScore : ℕ

/-- Game state as set by the FlappyGame constructor. -/
def initGame : GameState :=
  { birdY := SCREEN_HEIGHT / 2
    birdVelocity := 0
    obstacles := []
    score := 0
    gameStarted := false
    gameOver := false
    lastFlapTime := 0
    currentRound := 1
    bestScore := 0 }

/-- FlappyGame.flap at wall-clock time now: rejected (state unchanged) when
less than MIN_FLAP_INTERVAL has elapsed since the last accepted flap or when
the game is not started or already over; otherwise the velocity is
overwritten with FLAP_STRENGTH and the last-flap timestamp is updated. -/
def flap (g : GameState) (now : ℤ) : GameState :=
  if now - g.lastFlapTime < MIN_FLAP_INTERVAL then g
  else if !g.gameStarted || g.gameOver then g
  else { g with birdVelocity := FLAP_STRENGTH, lastFlapTime := now }

/-- FlappyGame.spawnObstacle with the uniform draw replaced by an explicit
parameter rand in [0, 1]: the gap top is drawn from
[80, SCREEN_HEIGHT - GAP_SIZE - 80] and the gap height is GAP_SIZE. -/
def spawnObstacle (rand : ℚ) : Obstacle :=
  let minGapTop : ℚ := 80
  let maxGapTop : ℚ := SCREEN_HEIGHT - GAP_SIZE - 80
  let gapTop := minGapTop + rand * (maxGapTop - minGapTop)
  { x := SCREEN_WIDTH, gapTop := gapTop, gapBottom := gapTop + GAP_SIZE, passed := false }

/-- Screen-bounds branch of FlappyGame.checkCollision: true when the bird
box shrunk by the 10 percent forgiveness margin exits the vertical screen
bounds. -/
def screenBoundsExit (g : GameState) : Bool :=
  let forgiveness := BIRD_SIZE * (1/10)
  let safeTop := (g.birdY - BIRD_SIZE / 2) + forgiveness
  let safeBottom := (g.birdY + BIRD_SIZE / 2) - forgiveness
  decide (safeTop < 0) || decide (SCREEN_HEIGHT < safeBottom)

/-- Obstacle branch of FlappyGame.checkCollision: true when the shrunk bird
box horizontally overlaps some obstacle pipe span while vertically outside
that obstacle gap. -/
def obstacleHit (g : GameState) : Bool :=
  let forgiveness := BIRD_SIZE * (1/10)
  let safeTop := (g.birdY - BIRD_SIZE / 2) + forgiveness
  let safeBottom := (g.birdY + BIRD_SIZE / 2) - forgiveness
  let safeLeft := (BIRD_X - BIRD_SIZE / 2) + forgiveness
  let safeRight := (BIRD_X + BIRD_SIZE / 2) - forgiveness
  g.obstacles.any fun o =>
    (decide (o.x < safeRight) && decide (safeLeft < o.x + OBSTACLE_WIDTH)) &&
    (decide (safeTop < o.gapTop) || decide (o.gapBottom < safeBottom))

/-- FlappyGame.checkCollision: returns true at once when the shrunk bird
box exits the vertical screen bounds, otherwise scans the obstacles. -/
def checkCollision (g : GameState) : Bool :=
  if screenBoundsExit g then true else obstacleHit g

/-- One FlappyGame.update physics tick, with the spawn randomness passed as
the parameter rand: gravity with one-directional terminal-velocity clamp,
position integration, ceiling clamp (soft, zeroes the velocity), floor
clamp (sets the terminal flag), spawn policy, obstacle advance with
scoring and off-screen removal, and the final collision test that may set
the terminal flag. -/
def update (g : GameState) (rand : ℚ) : GameState :=
  let v1 := g.birdVelocity + GRAVITY
  let v2 := if 10 < v1 then 10 else v1
  let y1 := g.birdY + v2
  let birdRadius := BIRD_SIZE / 2
  let y2 := if y1 < birdRadius then birdRadius else y1
  let v3 := if y1 < birdRadius then 0 else v2
  let y3 := if SCREEN_HEIGHT - birdRadius < y2 then SCREEN_HEIGHT - birdRadius else y2
  let over1 := if SCREEN_HEIGHT - birdRadius < y2 then true else g.gameOver
  let obs1 :=
    match g.obstacles.getLast? with
    | none => [spawnObstacle rand]
    | some lastObs =>
      if SPAWN_DISTANCE < SCREEN_WIDTH - lastObs.x then
        g.obstacles ++ [spawnObstacle rand]
      else g.obstacles
  let moved := obs1.map fun o =>
    { o with
      x := o.x - OBSTACLE_SPEED
      passed := o.passed || decide (o.x - OBSTACLE_SPEED + OBSTACLE_WIDTH < BIRD_X) }
  let newlyPassed :=
    (obs1.filter fun o =>
      !o.passed && decide (o.x - OBSTACLE_SPEED + OBSTACLE_WIDTH < BIRD_X)).length
  let obs2 := moved.filter fun o => !(decide (o.x + OBSTACLE_WIDTH < 0))
  let g1 : GameState :=
    { g with
      birdY := y3
      birdVelocity := v3
      obstacles := obs2
      score := g.score + 10 * newlyPassed
      gameOver := over1 }
  if checkCollision g1 then { g1 with gameOver := true } else g1

/-- Outcome of FlappyGame.handleGameOver: either the round-over overlay
with a next round available, or the terminal CTA screen. -/
inductive Outcome where
  | roundOver
  | sessionOver
deriving DecidableEq

/-- FlappyGame.handleGameOver: stop the loop, fold the round score into the
best score, then show the round-over overlay when rounds remain and the CTA
screen on the final round. -/
def handleGameOver (g : GameState) : GameState × Outcome :=
  let g1 := { g with
    gameStarted := false
    bestScore := if g.bestScore < g.score then g.score else g.bestScore }
  if g.currentRound < maxRounds then (g1, Outcome.roundOver) else (g1, Outcome.sessionOver)

/-- Projection lemma: the hysteresis flag computed by detectSmile, expressed
through the smoothed score that the same call publishes. -/
lemma detectSmile_fst_isSmiling (s : FDState) (x : ℚ) :
    (detectSmile s x).1.isSmiling =
      if !s.isSmiling then
        if triggerThreshold < (detectSmile s x).1.smileScore then true else false
      else
        if (detectSmile s x).1.smileScore < resetThreshold then false else true := rfl

/-- Projection lemma: the callback invocation reported by detectSmile is
some of the new flag exactly when the flag changed. -/
lemma detectSmile_snd (s : FDState) (x : ℚ) :
    (detectSmile s x).2 =
      if s.isSmiling != (detectSmile s x).1.isSmiling then some (detectSmile s x).1.isSmiling
      else none := rfl

/-- Projection lemma: processResults on a no-face frame only zeroes the
published score and reports no callback. -/
lemma processResults_none (s : FDState) :
    processResults s none = ({ s with smileScore := 0 }, none) := rfl

/-- Iterating no-face frames any positive number of times only zeroes the
published score. -/
lemma noFaceIter_succ_eq (s : FDState) (n : ℕ) :
    noFaceIter s (n + 1) = { s with smileScore := 0 } := by
  induction n with
  | zero => rfl
  | succ n ih =>
    show (processResults (noFaceIter s (n + 1)) none).1 = _
    rw [ih]
    rfl

/-- C1, counterexample: after one smile sample of 0.9 the detector is
Active with buffer [0.9]; ten consecutive no-face frames leave the buffer
at [0.9] (no composite score 0 is ever pushed into the FIFO) and leave the
state Active (it never resets to Idle), contradicting the claim that a
no-face frame pushes 0 through the smoothing and hysteresis pipeline. -/
theorem C1_counterexample :
    (stepFD initFD (9/10)).isSmiling = true ∧
    (noFaceIter (stepFD initFD (9/10)) 10).smileBuffer = [9/10] ∧
    (noFaceIter (stepFD initFD (9/10)) 10).isSmiling = true := by
  rw [show (10 : ℕ) = 9 + 1 from rfl, noFaceIter_succ_eq]
  norm_num [stepFD, detectSmile, initFD, bufferSize, triggerThreshold, resetThreshold]

/-- C1, amended: a no-face frame sets the published smileScore to 0 and
returns at once without invoking the callback; the smoothing buffer and the
GestureState are left untouched, so any run of consecutive no-face frames
leaves the buffer and the hysteresis flag exactly as they were. -/
theorem C1_theorem (s : FDState) (n : ℕ) (h : 1 ≤ n) :
    (noFaceIter s n).smileBuffer = s.smileBuffer ∧
    (noFaceIter s n).isSmiling = s.isSmiling ∧
    (noFaceIter s n).smileScore = 0 ∧
    (processResults s none).2 = none := by
  obtain ⟨m, rfl⟩ := Nat.exists_eq_add_of_le h
  rw [show 1 + m = m + 1 from Nat.add_comm 1 m, noFaceIter_succ_eq]
  exact ⟨rfl, rfl, rfl, rfl⟩

/-- C1, witness: the amended statement evaluated on the fresh detector and
three no-face frames. -/
theorem C1_witness :
    (noFaceIter initFD 3).smileBuffer = initFD.smileBuffer ∧
    (noFaceIter initFD 3).isSmiling = initFD.isSmiling ∧
    (noFaceIter initFD 3).smileScore = 0 ∧
    (processResults initFD none).2 = none :=
  C1_theorem initFD 3 (by norm_num)

/-- C2, counterexample: from the fresh detector, the composite score run
[0.9, 0, 0] first triggers Active (callback with true), then the third
sample drives the smoothed score to 0.3 below the reset threshold and the
Active to Idle transition invokes the callback with false: the transition
back to Idle is not silent. -/
theorem C2_counterexample :
    (stepsFD initFD [9/10, 0, 0]).map Prod.snd = [some true, none, some false] := by
  norm_num [stepsFD, detectSmile, initFD, bufferSize, triggerThreshold, resetThreshold]

/-- C2, amended: the onSmileChange callback fires on every hysteresis state
change, in both directions, carrying the new flag as payload: it reports
some true exactly on the Idle to Active transition (the only invocation
that triggers a flap downstream, since the game consumer acts only on a
true payload) and some false exactly on the Active to Idle transition,
and stays silent exactly when the state is unchanged. -/
theorem C2_theorem (s : FDState) (x : ℚ) :
    ((detectSmile s x).2 = none ↔ (detectSmile s x).1.isSmiling = s.isSmiling) ∧
    ((detectSmile s x).2 = some true ↔ s.isSmiling = false ∧ (detectSmile s x).1.isSmiling = true) ∧
    ((detectSmile s x).2 = some false ↔ s.isSmiling = true ∧ (detectSmile s x).1.isSmiling = false) := by
  rw [detectSmile_snd]
  cases hs : s.isSmiling <;> cases hd : (detectSmile s x).1.isSmiling <;> simp [hs, hd]

/-- Buffer shape of one detectSmile step: append the new score, then drop
the head exactly when the appended buffer is over capacity. -/
lemma stepFD_buffer (s : FDState) (x : ℚ) :
    (stepFD s x).smileBuffer =
      if bufferSize < s.smileBuffer.length + 1 then (s.smileBuffer ++ [x]).tail
      else s.smileBuffer ++ [x] := by
  simp [stepFD, detectSmile]

/-- Published score of one detectSmile step: always the arithmetic mean of
the buffer the same step leaves behind. -/
lemma stepFD_score (s : FDState) (x : ℚ) :
    (stepFD s x).smileScore =
      (stepFD s x).smileBuffer.sum / ((stepFD s x).smileBuffer.length : ℚ) := rfl

/-- Buffer contents after ingesting a whole score list from the fresh
detector: exactly the last five scores (all of them when fewer). -/
lemma ingestList_buffer (l : List ℚ) :
    (ingestList l).smileBuffer = l.drop (l.length - 5) := by
  induction l using List.reverseRecOn with
  | nil => rfl
  | append_singleton l x ih =>
    have hfold : ingestList (l ++ [x]) = stepFD (ingestList l) x := by
      simp [ingestList, List.foldl_append]
    rw [hfold, stepFD_buffer, ih]
    rcases le_or_lt l.length 4 with hle | hlt
    · have h1 : l.length - 5 = 0 := by omega
      have h2 : l.length - 4 = 0 := by omega
      have h3 : ¬ bufferSize < l.length + 1 := by simp [bufferSize]; omega
      simp [h1, h2, h3]
    · have h3 : bufferSize < (l.drop (l.length - 5)).length + 1 := by
        simp [List.length_drop, bufferSize]; omega
      have h4 : l.length - 5 ≤ l.length := by omega
      rw [if_pos h3, ← List.drop_append_of_le_length h4, List.tail_drop]
      have h5 : l.length - 5 + 1 = (l ++ [x]).length - 5 := by simp; omega
      rw [h5]

/-- C3: after ingesting any score sequence the smoothing buffer holds
exactly the last min(n, 5) ingested composite scores, oldest evicted
first, and (once at least one score was ingested) the published smoothed
score is the arithmetic mean of exactly the current buffer contents. -/
theorem C3_theorem (l : List ℚ) :
    (ingestList l).smileBuffer = l.drop (l.length - 5) ∧
    (ingestList l).smileBuffer.length = min l.length 5 ∧
    (l ≠ [] → (ingestList l).smileScore =
      (ingestList l).smileBuffer.sum / ((ingestList l).smileBuffer.length : ℚ)) := by
  refine ⟨ingestList_buffer l, ?_, ?_⟩
  · rw [ingestList_buffer, List.length_drop]
    omega
  · intro hne
    rcases (List.eq_nil_or_concat l) with h | ⟨L, b, h⟩
    · exact absurd h hne
    · rw [List.concat_eq_append] at h
      subst h
      have hfold : ingestList (L ++ [b]) = stepFD (ingestList L) b := by
        simp [ingestList, List.foldl_append]
      rw [hfold]
      exact stepFD_score (ingestList L) b

/-- C3, witness: the statement evaluated on the six-score run
[1, 2, 3, 4, 5, 6]. -/
theorem C3_witness :
    (ingestList [1, 2, 3, 4, 5, 6]).smileBuffer =
      ([1, 2, 3, 4, 5, 6] : List ℚ).drop (([1, 2, 3, 4, 5, 6] : List ℚ).length - 5) ∧
    (ingestList [1, 2, 3, 4, 5, 6]).smileBuffer.length =
      min ([1, 2, 3, 4, 5, 6] : List ℚ).length 5 ∧
    (ingestList [1, 2, 3, 4, 5, 6]).smileScore =
      (ingestList [1, 2, 3, 4, 5, 6]).smileBuffer.sum /
        ((ingestList [1, 2, 3, 4, 5, 6]).smileBuffer.length : ℚ) :=
  ⟨(C3_theorem [1, 2, 3, 4, 5, 6]).1, (C3_theorem [1, 2, 3, 4, 5, 6]).2.1,
    (C3_theorem [1, 2, 3, 4, 5, 6]).2.2 (by simp)⟩

/-- Hysteresis step in the dead zone: when the smoothed score lands between
the two thresholds the flag is unchanged and no callback fires. -/
lemma deadzone_step (s : FDState) (x : ℚ)
    (h1 : resetThreshold ≤ (detectSmile s x).1.smileScore)
    (h2 : (detectSmile s x).1.smileScore ≤ triggerThreshold) :
    (detectSmile s x).1.isSmiling = s.isSmiling ∧ (detectSmile s x).2 = none := by
  have hflag : (detectSmile s x).1.isSmiling = s.isSmiling := by
    rw [detectSmile_fst_isSmiling]
    cases hs : s.isSmiling <;> simp [not_lt.mpr h1, not_lt.mpr h2]
  refine ⟨hflag, ?_⟩
  rw [detectSmile_snd, hflag]
  simp

/-- Hysteresis step from Active: while the smoothed score does not fall
below the reset threshold the flag stays Active and no callback fires. -/
lemma active_step (s : FDState) (x : ℚ) (hA : s.isSmiling = true)
    (h : resetThreshold ≤ (detectSmile s x).1.smileScore) :
    (detectSmile s x).1.isSmiling = true ∧ (detectSmile s x).2 = none := by
  have hflag : (detectSmile s x).1.isSmiling = true := by
    rw [detectSmile_fst_isSmiling]
    simp [hA, not_lt.mpr h]
  refine ⟨hflag, ?_⟩
  rw [detectSmile_snd, hflag, hA]
  simp

/-- C4: over any run whose smoothed scores all stay strictly inside the
dead zone (0.4, 0.6), the hysteresis flag never changes, from Idle as from
Active, and no callback fires at any step. -/
theorem C4_theorem (s : FDState) (l : List ℚ)
    (h : ∀ p ∈ stepsFD s l,
      resetThreshold < p.1.smileScore ∧ p.1.smileScore < triggerThreshold) :
    ∀ p ∈ stepsFD s l, p.1.isSmiling = s.isSmiling ∧ p.2 = none := by
  induction l generalizing s with
  | nil => intro p hp; simp [stepsFD] at hp
  | cons x xs ih =>
    have hhead := h (detectSmile s x) (by simp [stepsFD])
    have hstep := deadzone_step s x (le_of_lt hhead.1) (le_of_lt hhead.2)
    intro p hp
    simp only [stepsFD, List.mem_cons] at hp
    rcases hp with rfl | hp2
    · exact hstep
    · have hrec : ∀ q ∈ stepsFD (detectSmile s x).1 xs,
          resetThreshold < q.1.smileScore ∧ q.1.smileScore < triggerThreshold := by
        intro q hq
        exact h q (by simp only [stepsFD, List.mem_cons]; exact Or.inr hq)
      have htail := ih (detectSmile s x).1 hrec p hp2
      exact ⟨htail.1.trans hstep.1, htail.2⟩

/-- C4, witness: a detector in the dead zone (buffer [0.5], any further
0.5 samples) keeps its Idle flag and fires nothing. -/
theorem C4_witness :
    (detectSmile ⟨1/2, false, [1/2]⟩ (1/2)).1.isSmiling = false ∧
    (detectSmile ⟨1/2, false, [1/2]⟩ (1/2)).2 = none :=
  C4_theorem ⟨1/2, false, [1/2]⟩ [1/2]
    (by norm_num [stepsFD, detectSmile, bufferSize, triggerThreshold, resetThreshold])
    (detectSmile ⟨1/2, false, [1/2]⟩ (1/2)) (by simp [stepsFD])

/-- C5: once Active, no further some-true callback (the gesture event) can
fire while the smoothed score never falls below the reset threshold 0.4 at
any step of the run (in particular while it stays above 0.6); and from
Idle the gesture event fires only when the smoothed score exceeds the
trigger threshold 0.6. -/
theorem C5_theorem :
    (∀ (s : FDState) (l : List ℚ), s.isSmiling = true →
      (∀ p ∈ stepsFD s l, resetThreshold ≤ p.1.smileScore) →
      ∀ p ∈ stepsFD s l, p.1.isSmiling = true ∧ p.2 = none) ∧
    (∀ (s : FDState) (x : ℚ), s.isSmiling = false →
      (detectSmile s x).2 = some true →
      triggerThreshold < (detectSmile s x).1.smileScore) := by
  constructor
  · intro s l
    induction l generalizing s with
    | nil => intro _ _ p hp; simp [stepsFD] at hp
    | cons x xs ih =>
      intro hA h
      have hhead := h (detectSmile s x) (by simp [stepsFD])
      have hstep := active_step s x hA hhead
      intro p hp
      simp only [stepsFD, List.mem_cons] at hp
      rcases hp with rfl | hp2
      · exact hstep
      · have hrec : ∀ q ∈ stepsFD (detectSmile s x).1 xs,
            resetThreshold ≤ q.1.smileScore := by
          intro q hq
          exact h q (by simp only [stepsFD, List.mem_cons]; exact Or.inr hq)
        exact ih (detectSmile s x).1 hstep.1 hrec p hp2
  · intro s x hI hev
    by_contra hno
    have hflag : (detectSmile s x).1.isSmiling = false := by
      rw [detectSmile_fst_isSmiling]
      simp [hI, hno]
    rw [detectSmile_snd, hflag, hI] at hev
    simp at hev

/-- C5, witness: an Active detector fed another 0.9 stays Active with no
callback, and from the fresh Idle detector the 0.9 sample that reports the
gesture event indeed has its smoothed score above the trigger threshold. -/
theorem C5_witness :
    ((detectSmile ⟨9/10, true, [9/10]⟩ (9/10)).1.isSmiling = true ∧
      (detectSmile ⟨9/10, true, [9/10]⟩ (9/10)).2 = none) ∧
    triggerThreshold < (detectSmile initFD (9/10)).1.smileScore :=
  ⟨C5_theorem.1 ⟨9/10, true, [9/10]⟩ [9/10] rfl
      (by norm_num [stepsFD, detectSmile, bufferSize, resetThreshold])
      (detectSmile ⟨9/10, true, [9/10]⟩ (9/10)) (by simp [stepsFD]),
    C5_theorem.2 initFD (9/10) rfl
      (by norm_num [detectSmile, initFD, bufferSize, triggerThreshold])⟩

/-- Composite score scenario sequence from the spec: five zeros followed by
five samples of 0.9. -/
def c6seq : List ℚ := [0, 0, 0, 0, 0, 9/10, 9/10, 9/10, 9/10, 9/10]

/-- C6: from the fresh detector the scenario sequence produces exactly one
callback, some true (the single Idle to Active transition), and it occurs
at the ninth sample, the fourth 0.9: the smoothed score after the eighth
sample is 27/50 = 0.54, still at most 0.6, and after the ninth it is
18/25 = 0.72, above 0.6. -/
theorem C6_theorem :
    (stepsFD initFD c6seq).map Prod.snd =
      [none, none, none, none, none, none, none, none, some true, none] ∧
    (ingestList (c6seq.take 8)).smileScore = 27/50 ∧
    (ingestList (c6seq.take 9)).smileScore = 18/25 := by
  refine ⟨?_, ?_, ?_⟩ <;>
    norm_num [c6seq, stepsFD, detectSmile, ingestList, stepFD, initFD, bufferSize,
      triggerThreshold, resetThreshold]

/-- C7: a flap request is rejected, leaving the whole game state (velocity
and last-flap timestamp included) unchanged, whenever less than
MIN_FLAP_INTERVAL has elapsed since the last accepted flap or the game is
not started or already over; when the game is Running and at least
MIN_FLAP_INTERVAL has elapsed, the flap is accepted: the velocity is
overwritten with FLAP_STRENGTH = -7 regardless of its prior value and the
last-flap timestamp is set to now, with nothing else changed. -/
theorem C7_theorem (g : GameState) (now : ℤ) :
    ((now - g.lastFlapTime < MIN_FLAP_INTERVAL ∨ g.gameStarted = false ∨ g.gameOver = true) →
      flap g now = g) ∧
    (MIN_FLAP_INTERVAL ≤ now - g.lastFlapTime → g.gameStarted = true → g.gameOver = false →
      flap g now = { g with birdVelocity := FLAP_STRENGTH, lastFlapTime := now }) := by
  constructor
  · intro h
    rw [flap]
    split_ifs with h1 h2
    · rfl
    · rfl
    · exfalso
      rcases h with h | h | h
      · exact absurd h h1
      · exact absurd (by simp [h]) h2
      · exact absurd (by simp [h]) h2
  · intro htime hstart hover
    rw [flap, if_neg (not_lt.mpr htime), if_neg (by simp [hstart, hover])]

/-- C7, witness: on a just-started game (last-flap timestamp 0) a flap at
time 100 is silently dropped and a flap at time 600 is accepted, setting
the velocity to -7 and the timestamp to 600. -/
theorem C7_witness :
    flap { initGame with gameStarted := true } 100 = { initGame with gameStarted := true } ∧
    flap { initGame with gameStarted := true } 600 =
      { initGame with
        gameStarted := true
        birdVelocity := FLAP_STRENGTH
        lastFlapTime := 600 } :=
  ⟨(C7_theorem { initGame with gameStarted := true } 100).1
      (Or.inl (by norm_num [initGame, MIN_FLAP_INTERVAL])),
    (C7_theorem { initGame with gameStarted := true } 600).2
      (by norm_num [initGame, MIN_FLAP_INTERVAL]) rfl rfl⟩

/-- Velocity left by one physics tick: gravity added, clamped from above at
10, and zeroed when the tick hits the ceiling; nothing else in the tick
touches the velocity. -/
lemma update_birdVelocity (g : GameState) (r : ℚ) :
    (update g r).birdVelocity =
      if g.birdY + (if 10 < g.birdVelocity + GRAVITY then 10 else g.birdVelocity + GRAVITY)
          < BIRD_SIZE / 2 then 0
      else if 10 < g.birdVelocity + GRAVITY then 10 else g.birdVelocity + GRAVITY := by
  simp only [update, apply_ite GameState.birdVelocity, ite_self]

/-- Bird position left by one physics tick: integrated, clamped to the
ceiling at BIRD_SIZE / 2 and to the floor at SCREEN_HEIGHT - BIRD_SIZE / 2;
nothing else in the tick touches the position. -/
lemma update_birdY (g : GameState) (r : ℚ) :
    (update g r).birdY =
      if SCREEN_HEIGHT - BIRD_SIZE / 2 <
          (if g.birdY + (if 10 < g.birdVelocity + GRAVITY then 10 else g.birdVelocity + GRAVITY)
              < BIRD_SIZE / 2 then BIRD_SIZE / 2
           else g.birdY +
             (if 10 < g.birdVelocity + GRAVITY then 10 else g.birdVelocity + GRAVITY))
      then SCREEN_HEIGHT - BIRD_SIZE / 2
      else
        if g.birdY + (if 10 < g.birdVelocity + GRAVITY then 10 else g.birdVelocity + GRAVITY)
            < BIRD_SIZE / 2 then BIRD_SIZE / 2
        else g.birdY + (if 10 < g.birdVelocity + GRAVITY then 10 else g.birdVelocity + GRAVITY) := by
  simp only [update, apply_ite GameState.birdY, ite_self]

/-- C8: after any physics tick, from any state, the bird velocity is at
most the terminal velocity 10; and the clamp is one-directional: whenever
gravity does not push the velocity above 10 and the tick does not hit the
ceiling, the tick leaves exactly velocity + GRAVITY, however negative, so
no lower clamp is ever applied. -/
theorem C8_theorem (g : GameState) (r : ℚ) :
    (update g r).birdVelocity ≤ 10 ∧
    (g.birdVelocity + GRAVITY ≤ 10 →
      ¬ (g.birdY + (g.birdVelocity + GRAVITY) < BIRD_SIZE / 2) →
      (update g r).birdVelocity = g.birdVelocity + GRAVITY) := by
  rw [update_birdVelocity]
  constructor
  · split_ifs <;> linarith
  · intro h1 h2
    have hv : (if 10 < g.birdVelocity + GRAVITY then 10 else g.birdVelocity + GRAVITY) =
        g.birdVelocity + GRAVITY := if_neg (not_lt.mpr h1)
    rw [hv, if_neg h2]

/-- C8, witness: a tick on a bird with velocity -100 at mid-screen leaves
velocity -100 + 0.2, far below the -7 a flap would set: the clamp does not
act from below; and the result is at most 10. -/
theorem C8_witness :
    (update { initGame with birdVelocity := -100 } 0).birdVelocity ≤ 10 ∧
    (update { initGame with birdVelocity := -100 } 0).birdVelocity = -100 + GRAVITY :=
  ⟨(C8_theorem { initGame with birdVelocity := -100 } 0).1,
    (C8_theorem { initGame with birdVelocity := -100 } 0).2
      (by norm_num [GRAVITY])
      (by norm_num [initGame, GRAVITY, BIRD_SIZE, SCREEN_HEIGHT])⟩

/-- C9: handleGameOver always stops the loop and folds the round score into
the best score as their maximum; it hands control to the round-over overlay
exactly when the current round is below 3 and to the terminal CTA screen
exactly when it is not. -/
theorem C9_theorem (g : GameState) :
    (handleGameOver g).1.bestScore = max g.bestScore g.score ∧
    (handleGameOver g).1.gameStarted = false ∧
    ((handleGameOver g).2 = Outcome.roundOver ↔ g.currentRound < 3) ∧
    ((handleGameOver g).2 = Outcome.sessionOver ↔ 3 ≤ g.currentRound) := by
  simp only [handleGameOver, maxRounds]
  split_ifs with h1 h2 <;>
    exact ⟨by simp; omega, rfl, by simp; omega, by simp; omega⟩

/-- C10: the bird position left by any physics tick is inside
[BIRD_SIZE / 2, SCREEN_HEIGHT - BIRD_SIZE / 2] = [30, 450], the
screen-bounds branch of checkCollision is false on every such state (the
10 percent forgiveness margin keeps the shrunk box strictly inside the
vertical screen bounds), and therefore the collision test the tick runs
can only report a hit through obstacle overlap. -/
theorem C10_theorem (g : GameState) (r : ℚ) :
    BIRD_SIZE / 2 ≤ (update g r).birdY ∧
    (update g r).birdY ≤ SCREEN_HEIGHT - BIRD_SIZE / 2 ∧
    screenBoundsExit (update g r) = false ∧
    checkCollision (update g r) = obstacleHit (update g r) := by
  have hb : BIRD_SIZE / 2 ≤ (update g r).birdY ∧
      (update g r).birdY ≤ SCREEN_HEIGHT - BIRD_SIZE / 2 := by
    rw [update_birdY]
    norm_num [BIRD_SIZE, SCREEN_HEIGHT]
    split_ifs <;> constructor <;> linarith
  have h1 := hb.1
  have h2 := hb.2
  have hsb : screenBoundsExit (update g r) = false := by
    simp only [screenBoundsExit, Bool.or_eq_false_iff, decide_eq_false_iff_not, not_lt]
    norm_num [BIRD_SIZE, SCREEN_HEIGHT] at h1 h2 ⊢
    constructor <;> linarith
  exact ⟨hb.1, hb.2, hsb, by rw [checkCollision, hsb]; simp⟩
